import Mathlib

/-!
Deuteron momentum distribution: the driver `main` of `src/main.cpp`.

The driver reads a configuration, loops over its model descriptors, opens one
output file per model, hands the file and the model parameters to
`CalculateDistribution`, closes the file, requests a single plot, and finally
requests one combined plot.

The embedding is a trace semantics: `main` maps the environment (what the
configuration file holds, which output paths can be opened, what the
calculation returns) to the list of observable events together with the way
the process ends.  C++ exceptions that nothing catches leave `main` and
terminate the process; the driver has no `try` block, so every exception
raised below it is of that kind.

Numbers are kept abstract in the driver (a type `R`), which only passes them
on; the calculation itself is stated over exact rationals.

`loopBody`, `loop` and `main` take the calculation as a function of its numeric
arguments.  `loopBodyS`, `loopS` and `mainS` are the same lines with the state
of the calculator object of line 40 threaded through the iterations; they are
used where the question is what one call leaves for the next.
-/

namespace Deuteron

/-! ## Data model -/

/-- Rows `(momentum, density)` in the order they are written to the output file. -/
abbrev Table (R : Type) := List (R × R)

/-- One element of the `"models"` array as the loop body reads it (lines 46-50).
A field is `none` when the key is absent or when its value does not convert to
the C++ type the assignment asks for; either way the read does not yield a
value and the process is terminated at that statement. -/
structure Descriptor (R : Type) where
  name : Option String
  alpha : Option R
  m_0 : Option R
  c : Option (List R)
  d : Option (List R)
deriving DecidableEq

/-- A descriptor whose five fields are all present: the values of the locals
`model_name`, `alpha`, `m_0`, `c`, `d` after lines 46-50. -/
structure Model (R : Type) where
  name : String
  alpha : R
  m_0 : R
  c : List R
  d : List R
deriving DecidableEq

/-- The JSON element a complete model is read from. -/
def Model.toDescriptor {R : Type} (m : Model R) : Descriptor R :=
  ⟨some m.name, some m.alpha, some m.m_0, some m.c, some m.d⟩

/-- Whether all five fields of a descriptor can be read. -/
def Descriptor.complete {R : Type} (x : Descriptor R) : Bool :=
  x.name.isSome && x.alpha.isSome && x.m_0.isSome && x.c.isSome && x.d.isSome

/-- What `src/models_config.json` is to the program: it cannot be opened
(line 32), it opens but `json_file >> model_params` throws (line 37), or it
parses and `model_params["models"]` iterates over the given elements. -/
inductive Config (R : Type) where
  | unopened
  | malformed
  | parsed (models : List (Descriptor R))
deriving DecidableEq

/-- Modelled from the spec: the error kinds of section 7 that the calculation
raises; their declarations are absent from the sources. -/
inductive CalcError where
  | InvalidParameterError
  | DegenerateNormalizationError
deriving DecidableEq

/-- An exception that leaves `main` because nothing catches it. -/
inductive Uncaught where
  | parse_error
  | field_error
  | calc_error (e : CalcError)
deriving DecidableEq

/-- How the process ends: `main` returns a status, or an exception escapes it. -/
inductive Outcome where
  | returned (code : Int)
  | terminated (e : Uncaught)
deriving DecidableEq

/-- Observable actions of the driver, in program order. -/
inductive Event (R : Type) where
  /-- A line written to `std::cerr`. -/
  | cerr (line : String)
  /-- The constructor `std::ofstream out_file(path)`; `ok` is `is_open()`. -/
  | openOut (path : String) (ok : Bool)
  /-- The call `calculator.CalculateDistribution(out_file, alpha, m_0, c, d)`,
  `path` being the file `out_file` is attached to. -/
  | calculate (path : String) (alpha m_0 : R) (c d : List R)
  /-- The rows the calculation wrote to `out_file` before it returned. -/
  | written (path : String) (table : Table R)
  /-- The call `out_file.close()`. -/
  | closeOut (path : String)
  /-- The call `generator.GenerateSinglePlot(model_name, data, image)`. -/
  | GenerateSinglePlot (model_name data image : String)
  /-- The call `generator.GenerateCombinedPlot(model_params["models"], image)`. -/
  | GenerateCombinedPlot (models : List (Descriptor R)) (image : String)
deriving DecidableEq

/-- The result of one run: the events in order and the way the process ended. -/
structure Run (R : Type) where
  trace : List (Event R)
  outcome : Outcome
deriving DecidableEq

/-! ## Strings built by the driver -/

/-- Line 53 and line 64: `"data/" + model_name + "_momentum_distribution.txt"`. -/
def dataPath (model_name : String) : String :=
  "data/" ++ model_name ++ "_momentum_distribution.txt"

/-- Line 64: `"plots/" + model_name + "_distribution.png"`. -/
def plotPath (model_name : String) : String :=
  "plots/" ++ model_name ++ "_distribution.png"

/-- Line 55: the diagnostic for an output file that did not open. -/
def openFailureLine (model_name : String) : String :=
  "Error: Failed to open output file for writing for " ++ model_name ++ " model."

/-- Line 33: the diagnostic for a configuration file that did not open. -/
def configFailureLine : String := "Error: Failed to open JSON file for reading."

/-- Line 68: the image path of the combined plot. -/
def combinedPath : String := "plots/combined_distribution.png"

/-! ## The driver -/

section Driver

variable {R : Type}

/-- Lines 46-64, one iteration of the loop for the element `model` at position
`i`.  `canOpen i path` tells whether the output file opens in that iteration.
The classes `MomentumDistributionCalculator` and `PlotGenerator` are declared in
headers that are not among the sources: `calculator` stands for the method
`CalculateDistribution`, taken as the specification describes it (section 4.2:
stateless across calls, keyed only by its inputs), a function from its numeric
arguments to the rows it writes to `out_file`, or to the error it raises; the
calls of the plot generator are recorded as events.  The second component of
the result is the exception that escapes the iteration, if any. -/
def loopBody (canOpen : Nat → String → Bool)
    (calculator : R → R → List R → List R → Except CalcError (Table R))
    (i : Nat) (model : Descriptor R) : List (Event R) × Option Uncaught :=
  match model.name, model.alpha, model.m_0, model.c, model.d with
  | some model_name, some alpha, some m_0, some c, some d =>
    if canOpen i (dataPath model_name) then
      match calculator alpha m_0 c d with
      | .ok table =>
        ([.openOut (dataPath model_name) true,
          .calculate (dataPath model_name) alpha m_0 c d,
          .written (dataPath model_name) table,
          .closeOut (dataPath model_name),
          .GenerateSinglePlot model_name (dataPath model_name) (plotPath model_name)], none)
      | .error e =>
        ([.openOut (dataPath model_name) true,
          .calculate (dataPath model_name) alpha m_0 c d], some (.calc_error e))
    else
      ([.openOut (dataPath model_name) false, .cerr (openFailureLine model_name)], none)
  | _, _, _, _, _ => ([], some .field_error)

/-- Lines 45-65: the range-for over the elements, starting at position `i`.
An exception escaping an iteration ends the loop. -/
def loop (canOpen : Nat → String → Bool)
    (calculator : R → R → List R → List R → Except CalcError (Table R)) :
    Nat → List (Descriptor R) → List (Event R) × Option Uncaught
  | _, [] => ([], none)
  | i, model :: rest =>
    match loopBody canOpen calculator i model with
    | (evs, some e) => (evs, some e)
    | (evs, none) => (evs ++ (loop canOpen calculator (i + 1) rest).1, (loop canOpen calculator (i + 1) rest).2)

/-- Lines 28-71. -/
def main (cfg : Config R) (canOpen : Nat → String → Bool)
    (calculator : R → R → List R → List R → Except CalcError (Table R)) : Run R :=
  match cfg with
  | .unopened => ⟨[.cerr configFailureLine], .returned (-1)⟩
  | .malformed => ⟨[], .terminated .parse_error⟩
  | .parsed models =>
    match loop canOpen calculator 0 models with
    | (evs, some e) => ⟨evs, .terminated e⟩
    | (evs, none) => ⟨evs ++ [.GenerateCombinedPlot models combinedPath], .returned 0⟩

end Driver

/-! ## The calculation, from the specification

`include/momentum_distribution.h` and its implementation are not among the
sources; the calculation is modelled from sections 3, 4 and 7 of the
specification, over exact rationals (rounding is not modelled). -/

/-- Modelled from the spec: the grid specification of section 4.2, absent from
the sources; `count` evenly spaced points from `lower` to `upper`. -/
structure GridSpec where
  lower : ℚ
  upper : ℚ
  count : Nat
deriving DecidableEq

/-- Modelled from the spec: the momentum grid of section 3, absent from the
sources, in increasing order. -/
def gridPoints (g : GridSpec) : List ℚ :=
  (List.range g.count).map
    (fun (i : Nat) => g.lower + (i : ℚ) * ((g.upper - g.lower) / ((g.count : ℚ) - 1)))

/-- Modelled from the spec: the pole mass `m_j = alpha + (j-1)*m0` of section 3,
absent from the sources; `k` is the 0-based index `j - 1`. -/
def poleMass (alpha m0 : ℚ) (k : Nat) : ℚ := alpha + (k : ℚ) * m0

/-- Modelled from the spec: the pole sum `Σ_j coeff_j / (p^2 + m_j^2)` (see
section 4.1), absent from the sources, taken in coefficient-index order, the
first coefficient being at 0-based index `k`. -/
def poleSum (p alpha m0 : ℚ) : Nat → List ℚ → ℚ
  | _, [] => 0
  | k, cj :: rest => cj / (p ^ 2 + (poleMass alpha m0 k) ^ 2) + poleSum p alpha m0 (k + 1) rest

/-- Modelled from the spec: the WaveFunctionEngine of section 4.1, absent from
the sources; returns `(u(p), w(p))` or fails on `alpha ≤ 0`, `m0 ≤ 0`, `p < 0`. -/
def WaveFunctionEngine (p alpha m0 : ℚ) (c d : List ℚ) : Except CalcError (ℚ × ℚ) :=
  if alpha ≤ 0 ∨ m0 ≤ 0 ∨ p < 0 then .error .InvalidParameterError
  else .ok (poleSum p alpha m0 0 c, poleSum p alpha m0 0 d)

/-- Modelled from the spec: the unnormalized density `p^2 * (u^2 + w^2)`
(see section 4.2), absent from the sources. -/
def density (p alpha m0 : ℚ) (c d : List ℚ) : ℚ :=
  p ^ 2 * ((poleSum p alpha m0 0 c) ^ 2 + (poleSum p alpha m0 0 d) ^ 2)

/-- Modelled from the spec: the unnormalized rows of section 4.2, absent from
the sources; the engine is invoked at each grid point in order and its failure
is propagated. -/
def unnormalized (alpha m0 : ℚ) (c d : List ℚ) : List ℚ → Except CalcError (Table ℚ)
  | [] => .ok []
  | p :: ps =>
    match WaveFunctionEngine p alpha m0 c d with
    | .error e => .error e
    | .ok (u, w) =>
      match unnormalized alpha m0 c d ps with
      | .error e => .error e
      | .ok rows => .ok ((p, p ^ 2 * (u ^ 2 + w ^ 2)) :: rows)

/-- Modelled from the spec: the quadrature of section 4.2, absent from the
sources; the trapezoidal rule over the rows of a table. -/
def quadrature : Table ℚ → ℚ
  | (p0, f0) :: (p1, f1) :: rest => (p1 - p0) * (f0 + f1) / 2 + quadrature ((p1, f1) :: rest)
  | _ => 0

/-- Modelled from the spec: `CalculateDistribution` of section 4.2, absent from
the sources.  It fails with `InvalidParameterError` on an empty or inverted
grid or when the engine fails, with `DegenerateNormalizationError` when the
integral is zero, and otherwise yields the rows rescaled by `1/I`. -/
def CalculateDistribution (grid : GridSpec) (alpha m_0 : ℚ) (c d : List ℚ) :
    Except CalcError (Table ℚ) :=
  if grid.count = 0 ∨ grid.upper ≤ grid.lower then .error .InvalidParameterError
  else
    match unnormalized alpha m_0 c d (gridPoints grid) with
    | .error e => .error e
    | .ok rows =>
      if quadrature rows = 0 then .error .DegenerateNormalizationError
      else .ok (rows.map (fun row => (row.1, row.2 / quadrature rows)))

/-! ## The shared calculator object

Line 40 declares one `calculator` object before the loop and every iteration
calls its method on it.  The definitions below are the driver again with the
state of that object made explicit: the method reads the state the previous
calls left and leaves a state of its own.  For a method that neither reads nor
changes the state they agree with `loopBody`, `loop` and `main`. -/

section SharedObject

variable {S R : Type}

/-- Lines 46-64 with the object of line 40 made explicit: `s` is the state of
`calculator` when the iteration starts, and the last component of the result
is its state when the iteration ends.  The method maps the state and the
numeric arguments to the rows it writes, or the error it raises, and to the
state it leaves. -/
def loopBodyS (canOpen : Nat → String → Bool)
    (calculator : S → R → R → List R → List R → Except CalcError (Table R) × S)
    (i : Nat) (s : S) (model : Descriptor R) : (List (Event R) × Option Uncaught) × S :=
  match model.name, model.alpha, model.m_0, model.c, model.d with
  | some model_name, some alpha, some m_0, some c, some d =>
    if canOpen i (dataPath model_name) then
      match calculator s alpha m_0 c d with
      | (.ok table, s2) =>
        (([.openOut (dataPath model_name) true,
           .calculate (dataPath model_name) alpha m_0 c d,
           .written (dataPath model_name) table,
           .closeOut (dataPath model_name),
           .GenerateSinglePlot model_name (dataPath model_name) (plotPath model_name)], none),
          s2)
      | (.error e, s2) =>
        (([.openOut (dataPath model_name) true,
           .calculate (dataPath model_name) alpha m_0 c d], some (.calc_error e)), s2)
    else
      (([.openOut (dataPath model_name) false, .cerr (openFailureLine model_name)], none), s)
  | _, _, _, _, _ => (([], some .field_error), s)

/-- Lines 45-65 with the object of line 40 made explicit: each iteration
starts in the state the previous one left. -/
def loopS (canOpen : Nat → String → Bool)
    (calculator : S → R → R → List R → List R → Except CalcError (Table R) × S) :
    Nat → S → List (Descriptor R) → List (Event R) × Option Uncaught
  | _, _, [] => ([], none)
  | i, s, model :: rest =>
    match loopBodyS canOpen calculator i s model with
    | ((evs, some e), _) => (evs, some e)
    | ((evs, none), s2) =>
      (evs ++ (loopS canOpen calculator (i + 1) s2 rest).1,
        (loopS canOpen calculator (i + 1) s2 rest).2)

/-- Lines 28-71 with the object of line 40 made explicit: `s0` is the state the
constructor of `calculator` leaves. -/
def mainS (cfg : Config R) (canOpen : Nat → String → Bool)
    (calculator : S → R → R → List R → List R → Except CalcError (Table R) × S) (s0 : S) :
    Run R :=
  match cfg with
  | .unopened => ⟨[.cerr configFailureLine], .returned (-1)⟩
  | .malformed => ⟨[], .terminated .parse_error⟩
  | .parsed models =>
    match loopS canOpen calculator 0 s0 models with
    | (evs, some e) => ⟨evs, .terminated e⟩
    | (evs, none) => ⟨evs ++ [.GenerateCombinedPlot models combinedPath], .returned 0⟩

/-- Modelled from the spec: the method `CalculateDistribution` on the object of
line 40, whose class is absent from the sources.  Section 4.2 has the component
stateless across calls, each invocation an independent computation keyed only
by its inputs: the result is that of `CalculateDistribution` whatever the state
of the object, and the state is left as it was. -/
def specCalculator (grid : GridSpec) :
    S → ℚ → ℚ → List ℚ → List ℚ → Except CalcError (Table ℚ) × S :=
  fun s alpha m_0 c d => (CalculateDistribution grid alpha m_0 c d, s)

end SharedObject

/-! ## Observations on a trace -/

section Observations

variable {R : Type}

/-- The line of a diagnostic event. -/
def Event.cerrLine : Event R → Option String
  | .cerr line => some line
  | _ => none

/-- The numeric arguments of a call of `CalculateDistribution`. -/
def Event.calcArgs : Event R → Option (R × R × List R × List R)
  | .calculate _ alpha m_0 c d => some (alpha, m_0, c, d)
  | _ => none

/-- The rows an event writes, to whichever file. -/
def Event.table : Event R → Option (Table R)
  | .written _ table => some table
  | _ => none

/-- What an event makes of the content of `file`, where `fileOf` tells which
file a path string denotes: a successful open truncates the file it denotes,
and the rows written become its content. -/
def Event.contentAt {F : Type} [DecidableEq F] (fileOf : String → F) (file : F) :
    Event R → Option (Table R)
  | .openOut p ok => if ok = true ∧ fileOf p = file then some [] else none
  | .written p table => if fileOf p = file then some table else none
  | _ => none

/-- Whether the event is a plot request. -/
def Event.isPlot : Event R → Bool
  | .GenerateSinglePlot _ _ _ => true
  | .GenerateCombinedPlot _ _ => true
  | _ => false

/-- Whether the event writes rows, closes an output file or requests a plot. -/
def Event.isOutput : Event R → Bool
  | .written _ _ => true
  | .closeOut _ => true
  | .GenerateSinglePlot _ _ _ => true
  | .GenerateCombinedPlot _ _ => true
  | _ => false

/-- The event with its path arguments blanked: the output file path and the
data and image paths of a single plot.  Everything else is kept, the label of
a single plot included. -/
def Event.withoutPaths : Event R → Event R
  | .openOut _ ok => .openOut "" ok
  | .calculate _ alpha m_0 c d => .calculate "" alpha m_0 c d
  | .written _ table => .written "" table
  | .closeOut _ => .closeOut ""
  | .GenerateSinglePlot model_name _ _ => .GenerateSinglePlot model_name "" ""
  | e => e

/-- The event with its path arguments and the label of a single plot blanked.
Everything else is kept. -/
def Event.withoutNames : Event R → Event R
  | .GenerateSinglePlot _ _ _ => .GenerateSinglePlot "" "" ""
  | e => e.withoutPaths

/-- The diagnostic stream of a trace. -/
def diagnostics (trace : List (Event R)) : List String := trace.filterMap Event.cerrLine

/-- The argument tuples of the calculations a trace invokes, in order. -/
def calcCalls (trace : List (Event R)) : List (R × R × List R × List R) :=
  trace.filterMap Event.calcArgs

/-- The tables a trace writes, in order. -/
def tables (trace : List (Event R)) : List (Table R) :=
  trace.filterMap Event.table

/-- The content of `file` after the trace, where `fileOf` tells which file a
path string denotes: what the last event touching the file made of it, and
`none` when no event touched it. -/
def fileContent {F : Type} [DecidableEq F] (fileOf : String → F) (trace : List (Event R))
    (file : F) : Option (Table R) :=
  (trace.filterMap (Event.contentAt fileOf file)).getLast?

/-- The path string with runs of slashes collapsed into one slash; `afterSlash`
tells whether the character before was a slash. -/
def collapseSlashes (afterSlash : Bool) : List Char → List Char
  | [] => []
  | ch :: rest =>
    if ch = '/' then
      if afterSlash then collapseSlashes true rest else ch :: collapseSlashes true rest
    else ch :: collapseSlashes false rest

/-- A sample of which file a path string denotes: path strings that differ only
in repeated slashes denote the same file. -/
def sampleFileOf (path : String) : String := ⟨collapseSlashes false path.data⟩

/-- The run in which the loop reaches one iteration after the events `before`
and goes on with `after` when the iteration ends without an exception: lines
67-70 are reached when neither part ends with an exception. -/
def runAround (models : List (Descriptor R)) (before : List (Event R) × Option Uncaught)
    (iteration : List (Event R)) (after : List (Event R) × Option Uncaught) : Run R :=
  match before.2, after.2 with
  | some e, _ => ⟨before.1, .terminated e⟩
  | none, some e => ⟨before.1 ++ iteration ++ after.1, .terminated e⟩
  | none, none =>
    ⟨before.1 ++ iteration ++ after.1 ++ [.GenerateCombinedPlot models combinedPath],
      .returned 0⟩

/-- A configuration-level error: the file is missing, it is malformed, or some
model lacks a required field. -/
def Config.hasError : Config R → Bool
  | .unopened => true
  | .malformed => true
  | .parsed models => models.any (fun x => !x.complete)

/-- Whether the calculation returns rows for the model. -/
def succeeds (calculator : R → R → List R → List R → Except CalcError (Table R))
    (m : Model R) : Bool :=
  match calculator m.alpha m.m_0 m.c m.d with
  | .ok _ => true
  | .error _ => false

/-- The rows the calculation returns for the model (none when it raises). -/
def tableOf (calculator : R → R → List R → List R → Except CalcError (Table R))
    (m : Model R) : Table R :=
  match calculator m.alpha m.m_0 m.c m.d with
  | .ok table => table
  | .error _ => []

/-- No calculation raises: every model whose output file opens, the first model
being at position `i`, has a calculation that returns rows. -/
def noRaise (canOpen : Nat → String → Bool)
    (calculator : R → R → List R → List R → Except CalcError (Table R)) :
    Nat → List (Model R) → Bool
  | _, [] => true
  | i, m :: rest =>
    (!canOpen i (dataPath m.name) || succeeds calculator m) && noRaise canOpen calculator (i + 1) rest

/-- The models whose output file opens, in input order, the first model being
at position `i`. -/
def opened (canOpen : Nat → String → Bool) : Nat → List (Model R) → List (Model R)
  | _, [] => []
  | i, m :: rest =>
    if canOpen i (dataPath m.name) then m :: opened canOpen (i + 1) rest
    else opened canOpen (i + 1) rest

/-- The models whose output file does not open, in input order, the first
model being at position `i`. -/
def skipped (canOpen : Nat → String → Bool) : Nat → List (Model R) → List (Model R)
  | _, [] => []
  | i, m :: rest =>
    if canOpen i (dataPath m.name) then skipped canOpen (i + 1) rest
    else m :: skipped canOpen (i + 1) rest

/-- The environment in which the output file of iteration `k` opens and every
other iteration is as in `canOpen`. -/
def openAt (canOpen : Nat → String → Bool) (k : Nat) : Nat → String → Bool :=
  fun i path => if i = k then true else canOpen i path

/-- The events of an iteration whose output file opens and whose calculation
returns `table` (lines 53-64). -/
def processedEvents (m : Model R) (table : Table R) : List (Event R) :=
  [.openOut (dataPath m.name) true,
   .calculate (dataPath m.name) m.alpha m.m_0 m.c m.d,
   .written (dataPath m.name) table,
   .closeOut (dataPath m.name),
   .GenerateSinglePlot m.name (dataPath m.name) (plotPath m.name)]

/-- The events of an iteration whose output file does not open (lines 53-56). -/
def skippedEvents (m : Model R) : List (Event R) :=
  [.openOut (dataPath m.name) false, .cerr (openFailureLine m.name)]

/-- The events of the iteration for a complete model at position `i` when its
calculation does not raise. -/
def iterationEvents (canOpen : Nat → String → Bool)
    (calculator : R → R → List R → List R → Except CalcError (Table R))
    (i : Nat) (m : Model R) : List (Event R) :=
  if canOpen i (dataPath m.name) then processedEvents m (tableOf calculator m)
  else skippedEvents m

/-- The events of the loop over complete models, the first at position `i`,
when no calculation raises. -/
def loopEvents (canOpen : Nat → String → Bool)
    (calculator : R → R → List R → List R → Except CalcError (Table R)) :
    Nat → List (Model R) → List (Event R)
  | _, [] => []
  | i, m :: rest =>
    iterationEvents canOpen calculator i m ++ loopEvents canOpen calculator (i + 1) rest

end Observations

/-! ## Lemmas on the loop -/

section LoopLemmas

variable {R : Type} (canOpen : Nat → String → Bool)
  (calculator : R → R → List R → List R → Except CalcError (Table R))

theorem loopBody_model (i : Nat) (m : Model R) :
    loopBody canOpen calculator i m.toDescriptor =
      if canOpen i (dataPath m.name) then
        match calculator m.alpha m.m_0 m.c m.d with
        | .ok table => (processedEvents m table, none)
        | .error e =>
          ([.openOut (dataPath m.name) true,
            .calculate (dataPath m.name) m.alpha m.m_0 m.c m.d], some (.calc_error e))
      else (skippedEvents m, none) := rfl

theorem loopBody_incomplete (i : Nat) (x : Descriptor R) (h : x.complete = false) :
    loopBody canOpen calculator i x = ([], some .field_error) := by
  rcases x with ⟨_ | n, _ | a, _ | m, _ | c, _ | d⟩ <;>
    simp [Descriptor.complete, loopBody] at h ⊢

theorem loop_cons_model_skip (i : Nat) (m : Model R) (rest : List (Descriptor R))
    (h : canOpen i (dataPath m.name) = false) :
    loop canOpen calculator i (m.toDescriptor :: rest) =
      (skippedEvents m ++ (loop canOpen calculator (i + 1) rest).1,
        (loop canOpen calculator (i + 1) rest).2) := by
  simp [loop, loopBody_model, h]

theorem loop_cons_model_ok (i : Nat) (m : Model R) (rest : List (Descriptor R))
    (table : Table R) (h : canOpen i (dataPath m.name) = true)
    (hc : calculator m.alpha m.m_0 m.c m.d = .ok table) :
    loop canOpen calculator i (m.toDescriptor :: rest) =
      (processedEvents m table ++ (loop canOpen calculator (i + 1) rest).1,
        (loop canOpen calculator (i + 1) rest).2) := by
  simp [loop, loopBody_model, h, hc]

theorem loop_cons_model_error (i : Nat) (m : Model R) (rest : List (Descriptor R))
    (e : CalcError) (h : canOpen i (dataPath m.name) = true)
    (hc : calculator m.alpha m.m_0 m.c m.d = .error e) :
    loop canOpen calculator i (m.toDescriptor :: rest) =
      ([.openOut (dataPath m.name) true,
        .calculate (dataPath m.name) m.alpha m.m_0 m.c m.d], some (.calc_error e)) := by
  simp [loop, loopBody_model, h, hc]

theorem loop_cons_incomplete (i : Nat) (x : Descriptor R) (rest : List (Descriptor R))
    (h : x.complete = false) :
    loop canOpen calculator i (x :: rest) = ([], some .field_error) := by
  simp [loop, loopBody_incomplete canOpen calculator i x h]

/-- The loop over a concatenation: the second part runs only when the first
part ends without an exception. -/
theorem loop_append (xs ys : List (Descriptor R)) (i : Nat) :
    loop canOpen calculator i (xs ++ ys) =
      match (loop canOpen calculator i xs).2 with
      | some e => ((loop canOpen calculator i xs).1, some e)
      | none =>
        ((loop canOpen calculator i xs).1 ++ (loop canOpen calculator (i + xs.length) ys).1,
          (loop canOpen calculator (i + xs.length) ys).2) := by
  induction xs generalizing i with
  | nil => simp [loop]
  | cons x xs ih =>
    have h := ih (i + 1)
    simp only [List.cons_append, loop, List.length_cons]
    rcases hb : loopBody canOpen calculator i x with ⟨evs, _ | e⟩
    · rcases hl : (loop canOpen calculator (i + 1) xs).2 with _ | e
      · simp [hl] at h
        simp [h, Nat.add_assoc, Nat.add_comm 1]
      · simp [hl] at h
        simp [h]
    · simp

theorem succeeds_iff (m : Model R) :
    succeeds calculator m = true ↔
      calculator m.alpha m.m_0 m.c m.d = .ok (tableOf calculator m) := by
  unfold succeeds tableOf
  cases calculator m.alpha m.m_0 m.c m.d <;> simp

/-- The loop over complete models ends without an exception exactly when no
calculation raises. -/
theorem loop_models_outcome (ms : List (Model R)) (i : Nat) :
    (loop canOpen calculator i (ms.map Model.toDescriptor)).2 = none ↔
      noRaise canOpen calculator i ms = true := by
  induction ms generalizing i with
  | nil => simp [loop, noRaise]
  | cons m rest ih =>
    simp only [List.map_cons, noRaise, Bool.and_eq_true, Bool.or_eq_true, Bool.not_eq_true']
    cases h : canOpen i (dataPath m.name)
    · rw [loop_cons_model_skip canOpen calculator i m _ h]
      simp [ih (i + 1)]
    · cases hc : calculator m.alpha m.m_0 m.c m.d with
      | ok table =>
        rw [loop_cons_model_ok canOpen calculator i m _ table h hc]
        simp [ih (i + 1), succeeds, hc]
      | error e =>
        rw [loop_cons_model_error canOpen calculator i m _ e h hc]
        simp [succeeds, hc]

/-- The events of the loop over complete models when no calculation raises. -/
theorem loop_models_events (ms : List (Model R)) (i : Nat)
    (h : noRaise canOpen calculator i ms = true) :
    loop canOpen calculator i (ms.map Model.toDescriptor) =
      (loopEvents canOpen calculator i ms, none) := by
  induction ms generalizing i with
  | nil => simp [loop, loopEvents]
  | cons m rest ih =>
    simp only [noRaise, Bool.and_eq_true, Bool.or_eq_true, Bool.not_eq_true'] at h
    obtain ⟨hm, hrest⟩ := h
    simp only [List.map_cons, loopEvents, iterationEvents]
    cases ho : canOpen i (dataPath m.name)
    · rw [loop_cons_model_skip canOpen calculator i m _ ho, ih (i + 1) hrest]
      simp
    · have hs : succeeds calculator m = true := by
        rcases hm with hm | hm
        · rw [ho] at hm; cases hm
        · exact hm
      rw [loop_cons_model_ok canOpen calculator i m _ _ ho ((succeeds_iff calculator m).1 hs),
        ih (i + 1) hrest]
      simp

/-- The run over complete models when no calculation raises. -/
theorem main_models (ms : List (Model R)) (h : noRaise canOpen calculator 0 ms = true) :
    main (.parsed (ms.map Model.toDescriptor)) canOpen calculator =
      ⟨loopEvents canOpen calculator 0 ms ++
        [.GenerateCombinedPlot (ms.map Model.toDescriptor) combinedPath], .returned 0⟩ := by
  simp [main, loop_models_events canOpen calculator ms 0 h]

theorem main_parsed (models : List (Descriptor R)) :
    main (.parsed models) canOpen calculator =
      match loop canOpen calculator 0 models with
      | (evs, some e) => ⟨evs, .terminated e⟩
      | (evs, none) => ⟨evs ++ [.GenerateCombinedPlot models combinedPath], .returned 0⟩ := rfl

end LoopLemmas

/-! ## Exit status -/

/-- C1, as the code has it: when the configuration is read, `main` returns 0
exactly when no calculation it invokes raises, for every list of models and
every pattern of output files that fail to open; when the configuration file
cannot be opened, `main` returns the non-zero status -1. -/
theorem main_exit_status {R : Type} (ms : List (Model R)) (canOpen : Nat → String → Bool)
    (calculator : R → R → List R → List R → Except CalcError (Table R)) :
    ((main (.parsed (ms.map Model.toDescriptor)) canOpen calculator).outcome = .returned 0 ↔
        noRaise canOpen calculator 0 ms = true) ∧
      (main .unopened canOpen calculator).outcome = .returned (-1) ∧
      Outcome.returned (-1) ≠ Outcome.returned 0 := by
  refine ⟨?_, rfl, by decide⟩
  rw [← loop_models_outcome canOpen calculator ms 0]
  unfold main
  rcases hl : loop canOpen calculator 0 (ms.map Model.toDescriptor) with ⟨evs, _ | e⟩ <;> simp [hl]

/-- C1 as stated fails: the configuration is read, the only model has
`alpha = 0` and its output file opens, the calculation raises
`InvalidParameterError`, nothing catches it and `main` does not return 0. -/
theorem main_exit_status_counterexample :
    ¬ ((main (.parsed [(⟨"M", 0, 1, [1], []⟩ : Model ℚ).toDescriptor]) (fun _ _ => true)
        (CalculateDistribution ⟨0, 1, 2⟩)).outcome = .returned 0) := by
  decide

/-! ## Sample models and their calculations -/

/-- The calculation of the sample model `alpha = 1, m_0 = 1, c = [1], d = []`
on the two-point grid `0, 1`. -/
theorem calculate_unit_model :
    CalculateDistribution ⟨0, 1, 2⟩ 1 1 [1] [] = .ok [(0, 0), (1, 2)] := by
  norm_num [CalculateDistribution, gridPoints, unnormalized, WaveFunctionEngine, poleSum,
    poleMass, quadrature, List.range_succ]

/-- The calculation raises on `alpha = 0`, here on the two-point grid `0, 1`. -/
theorem calculate_zero_alpha :
    CalculateDistribution ⟨0, 1, 2⟩ 0 1 [1] [] = .error .InvalidParameterError := by
  rfl

/-! ## Configuration errors -/

/-- C2, as the code has it: a configuration file that cannot be opened ends the
run at once with a diagnostic and status -1; a malformed one terminates the run
before anything is opened, calculated or plotted; a model without a required
field terminates the run at that model, so that the events are exactly those of
the models before it: nothing is opened, calculated or plotted for that model
or any later one and no combined plot is requested. -/
theorem config_error_aborts {R : Type} (pre post : List (Descriptor R)) (bad : Descriptor R)
    (canOpen : Nat → String → Bool)
    (calculator : R → R → List R → List R → Except CalcError (Table R))
    (h : bad.complete = false) :
    main .unopened canOpen calculator = ⟨[.cerr configFailureLine], .returned (-1)⟩ ∧
      main .malformed canOpen calculator = ⟨[], .terminated .parse_error⟩ ∧
      main (.parsed (pre ++ bad :: post)) canOpen calculator =
        ⟨(loop canOpen calculator 0 pre).1,
          .terminated ((loop canOpen calculator 0 pre).2.getD .field_error)⟩ := by
  refine ⟨rfl, rfl, ?_⟩
  rw [main_parsed, loop_append]
  rcases hl : (loop canOpen calculator 0 pre).2 with _ | e
  · simp [loop_cons_incomplete canOpen calculator _ bad post h]
  · simp

/-- The theorem `config_error_aborts` at a configuration of one complete model
followed by a model without a name. -/
theorem config_error_aborts_witness :
    (⟨none, some 1, some 1, some [1], some []⟩ : Descriptor ℚ).complete = false ∧
      main (.parsed ([(⟨"N", 1, 1, [1], []⟩ : Model ℚ).toDescriptor] ++
          (⟨none, some 1, some 1, some [1], some []⟩ : Descriptor ℚ) :: []))
        (fun _ _ => true) (CalculateDistribution ⟨0, 1, 2⟩) =
        ⟨(loop (fun _ _ => true) (CalculateDistribution ⟨0, 1, 2⟩) 0
            [(⟨"N", 1, 1, [1], []⟩ : Model ℚ).toDescriptor]).1,
          .terminated ((loop (fun _ _ => true) (CalculateDistribution ⟨0, 1, 2⟩) 0
            [(⟨"N", 1, 1, [1], []⟩ : Model ℚ).toDescriptor]).2.getD .field_error)⟩ :=
  ⟨by decide, (config_error_aborts _ _ _ _ _ (by decide)).2.2⟩

/-- C2 as stated fails: the second model lacks its name, which is a
configuration-level error, yet the output file of the first model has been
opened, its calculation invoked and its plot requested before the run ends. -/
theorem config_error_aborts_counterexample :
    (Config.parsed [(⟨"N", 1, 1, [1], []⟩ : Model ℚ).toDescriptor,
        ⟨none, some 1, some 1, some [1], some []⟩]).hasError = true ∧
      (main (.parsed [(⟨"N", 1, 1, [1], []⟩ : Model ℚ).toDescriptor,
          ⟨none, some 1, some 1, some [1], some []⟩]) (fun _ _ => true)
        (CalculateDistribution ⟨0, 1, 2⟩)).trace =
        [.openOut (dataPath "N") true,
         .calculate (dataPath "N") 1 1 [1] [],
         .written (dataPath "N") [(0, 0), (1, 2)],
         .closeOut (dataPath "N"),
         .GenerateSinglePlot "N" (dataPath "N") (plotPath "N")] := by
  refine ⟨by decide, ?_⟩
  simp [main, loop, loopBody, Model.toDescriptor, calculate_unit_model]

/-! ## Errors raised by the calculation -/

/-- C4, as the code has it: when the calculation of a model raises, nothing
catches the error: the run is terminated at that model with the error uncaught,
the trace ends with the call of the calculation, so that no later model is
processed, no diagnostic names the model and no combined plot is requested, and
`main` does not return. -/
theorem calc_error_terminates {R : Type} (pre post : List (Descriptor R)) (M : Model R)
    (e : CalcError) (canOpen : Nat → String → Bool)
    (calculator : R → R → List R → List R → Except CalcError (Table R))
    (hpre : (loop canOpen calculator 0 pre).2 = none)
    (hopen : canOpen pre.length (dataPath M.name) = true)
    (herr : calculator M.alpha M.m_0 M.c M.d = .error e) :
    main (.parsed (pre ++ M.toDescriptor :: post)) canOpen calculator =
      ⟨(loop canOpen calculator 0 pre).1 ++
          [.openOut (dataPath M.name) true,
           .calculate (dataPath M.name) M.alpha M.m_0 M.c M.d],
        .terminated (.calc_error e)⟩ := by
  rw [main_parsed, loop_append, hpre]
  simp [loop_cons_model_error canOpen calculator _ M post e (by simpa using hopen) herr]

/-- The theorem `calc_error_terminates` at a model with `alpha = 0` followed by
a valid model. -/
theorem calc_error_terminates_witness :
    CalculateDistribution ⟨0, 1, 2⟩ 0 1 [1] [] = .error .InvalidParameterError ∧
      main (.parsed ([] ++ (⟨"M", 0, 1, [1], []⟩ : Model ℚ).toDescriptor ::
          [(⟨"N", 1, 1, [1], []⟩ : Model ℚ).toDescriptor]))
        (fun _ _ => true) (CalculateDistribution ⟨0, 1, 2⟩) =
        ⟨(loop (fun _ _ => true) (CalculateDistribution ⟨0, 1, 2⟩) 0 []).1 ++
            [.openOut (dataPath "M") true, .calculate (dataPath "M") 0 1 [1] []],
          .terminated (.calc_error .InvalidParameterError)⟩ :=
  ⟨calculate_zero_alpha,
    calc_error_terminates [] _ ⟨"M", 0, 1, [1], []⟩ _ _ _ rfl rfl calculate_zero_alpha⟩

/-- C4 as stated fails: the first model has `alpha = 0` and its calculation
raises `InvalidParameterError`; `main` does not return 0, the later model is
not processed, no combined plot is requested and no diagnostic is written. -/
theorem calc_error_terminates_counterexample :
    (main (.parsed [(⟨"M", 0, 1, [1], []⟩ : Model ℚ).toDescriptor,
          (⟨"N", 1, 1, [1], []⟩ : Model ℚ).toDescriptor]) (fun _ _ => true)
        (CalculateDistribution ⟨0, 1, 2⟩)) =
      ⟨[.openOut (dataPath "M") true, .calculate (dataPath "M") 0 1 [1] []],
        .terminated (.calc_error .InvalidParameterError)⟩ := by
  decide

/-! ## Output files that do not open -/

section SkipLemmas

variable {R : Type} (canOpen : Nat → String → Bool)

theorem openAt_of_ne (k j : Nat) (path : String) (h : j ≠ k) :
    openAt canOpen k j path = canOpen j path := by
  simp [openAt, h]

theorem openAt_self (k : Nat) (path : String) : openAt canOpen k k path = true := by
  simp [openAt]

end SkipLemmas

section SkipAnywhere

variable {R : Type} (canOpen canOpen2 : Nat → String → Bool)
  (calculator : R → R → List R → List R → Except CalcError (Table R))

/-- An iteration depends on the environment only at its own position. -/
theorem loopBody_congr (i : Nat) (x : Descriptor R)
    (h : ∀ path, canOpen i path = canOpen2 i path) :
    loopBody canOpen calculator i x = loopBody canOpen2 calculator i x := by
  rcases x with ⟨_ | n, _ | a, _ | m, _ | c, _ | d⟩ <;> simp [loopBody, h]

/-- The loop depends on the environment only at the positions it visits. -/
theorem loop_congr (xs : List (Descriptor R)) (i : Nat)
    (h : ∀ j path, i ≤ j → j < i + xs.length → canOpen j path = canOpen2 j path) :
    loop canOpen calculator i xs = loop canOpen2 calculator i xs := by
  induction xs generalizing i with
  | nil => simp [loop]
  | cons x rest ih =>
    have h0 : loopBody canOpen calculator i x = loopBody canOpen2 calculator i x :=
      loopBody_congr canOpen canOpen2 calculator i x
        (fun path => h i path (Nat.le_refl i) (by simp))
    have hr : loop canOpen calculator (i + 1) rest = loop canOpen2 calculator (i + 1) rest := by
      apply ih
      intro j path h1 h2
      apply h j path (by omega)
      simp only [List.length_cons]
      omega
    simp only [loop, h0, hr]

/-- The run over a list, split at one complete model whose iteration ends
without an exception. -/
theorem main_around (pre post : List (Descriptor R)) (M : Model R)
    (iteration : List (Event R))
    (h : loopBody canOpen calculator pre.length M.toDescriptor = (iteration, none)) :
    main (.parsed (pre ++ M.toDescriptor :: post)) canOpen calculator =
      runAround (pre ++ M.toDescriptor :: post) (loop canOpen calculator 0 pre) iteration
        (loop canOpen calculator (pre.length + 1) post) := by
  rw [main_parsed, loop_append]
  unfold runAround
  rcases hp : (loop canOpen calculator 0 pre).2 with _ | e
  · simp only [Nat.zero_add, loop, h]
    rcases hq : (loop canOpen calculator (pre.length + 1) post).2 with _ | e <;> simp
  · simp

end SkipAnywhere

/-- C3, as the code has it: for every list of models and every model `M` in it
whose output file does not open, `M` is skipped: when the loop reaches `M` its
iteration is the failed open and one diagnostic, neither the calculation nor
the single plot is invoked for `M`, and the loop goes on with the next model.
And when the calculation of `M` itself does not raise, the run in which the
file of `M` opens differs in the iteration of `M` only: the events before it,
the events after it and the way the run ends are the same in both runs. -/
theorem skip_is_isolated {R : Type} (pre post : List (Descriptor R)) (M : Model R)
    (canOpen : Nat → String → Bool)
    (calculator : R → R → List R → List R → Except CalcError (Table R))
    (hfail : canOpen pre.length (dataPath M.name) = false) :
    main (.parsed (pre ++ M.toDescriptor :: post)) canOpen calculator =
        runAround (pre ++ M.toDescriptor :: post) (loop canOpen calculator 0 pre)
          [.openOut (dataPath M.name) false, .cerr (openFailureLine M.name)]
          (loop canOpen calculator (pre.length + 1) post) ∧
      (succeeds calculator M = true →
        main (.parsed (pre ++ M.toDescriptor :: post)) (openAt canOpen pre.length) calculator =
          runAround (pre ++ M.toDescriptor :: post) (loop canOpen calculator 0 pre)
            [.openOut (dataPath M.name) true,
             .calculate (dataPath M.name) M.alpha M.m_0 M.c M.d,
             .written (dataPath M.name) (tableOf calculator M),
             .closeOut (dataPath M.name),
             .GenerateSinglePlot M.name (dataPath M.name) (plotPath M.name)]
            (loop canOpen calculator (pre.length + 1) post)) := by
  constructor
  · apply main_around
    rw [loopBody_model, hfail]
    rfl
  · intro hM
    have hpre : loop (openAt canOpen pre.length) calculator 0 pre =
        loop canOpen calculator 0 pre := by
      apply loop_congr
      intro j path _ h2
      exact openAt_of_ne canOpen _ _ _ (by omega)
    have hpost : loop (openAt canOpen pre.length) calculator (pre.length + 1) post =
        loop canOpen calculator (pre.length + 1) post := by
      apply loop_congr
      intro j path h1 _
      exact openAt_of_ne canOpen _ _ _ (by omega)
    rw [← hpre, ← hpost]
    apply main_around
    rw [loopBody_model, openAt_self, (succeeds_iff calculator M).1 hM]
    rfl

/-- The theorem `skip_is_isolated` at a valid model that does not open,
followed by a model with `alpha = 0`: both runs are terminated at the second
model. -/
theorem skip_is_isolated_witness :
    (fun (i : Nat) (_ : String) => decide (i ≠ 0)) ([] : List (Descriptor ℚ)).length
        (dataPath (⟨"M", 1, 1, [1], []⟩ : Model ℚ).name) = false ∧
      succeeds (CalculateDistribution ⟨0, 1, 2⟩) (⟨"M", 1, 1, [1], []⟩ : Model ℚ) = true ∧
      main (.parsed ([] ++ (⟨"M", 1, 1, [1], []⟩ : Model ℚ).toDescriptor ::
            [(⟨"N", 0, 1, [1], []⟩ : Model ℚ).toDescriptor]))
          (fun (i : Nat) (_ : String) => decide (i ≠ 0)) (CalculateDistribution ⟨0, 1, 2⟩) =
        runAround ([] ++ (⟨"M", 1, 1, [1], []⟩ : Model ℚ).toDescriptor ::
            [(⟨"N", 0, 1, [1], []⟩ : Model ℚ).toDescriptor])
          (loop (fun (i : Nat) (_ : String) => decide (i ≠ 0))
            (CalculateDistribution ⟨0, 1, 2⟩) 0 [])
          [.openOut (dataPath "M") false, .cerr (openFailureLine "M")]
          (loop (fun (i : Nat) (_ : String) => decide (i ≠ 0))
            (CalculateDistribution ⟨0, 1, 2⟩) (([] : List (Descriptor ℚ)).length + 1)
            [(⟨"N", 0, 1, [1], []⟩ : Model ℚ).toDescriptor]) ∧
      main (.parsed ([] ++ (⟨"M", 1, 1, [1], []⟩ : Model ℚ).toDescriptor ::
            [(⟨"N", 0, 1, [1], []⟩ : Model ℚ).toDescriptor]))
          (openAt (fun (i : Nat) (_ : String) => decide (i ≠ 0))
            ([] : List (Descriptor ℚ)).length) (CalculateDistribution ⟨0, 1, 2⟩) =
        runAround ([] ++ (⟨"M", 1, 1, [1], []⟩ : Model ℚ).toDescriptor ::
            [(⟨"N", 0, 1, [1], []⟩ : Model ℚ).toDescriptor])
          (loop (fun (i : Nat) (_ : String) => decide (i ≠ 0))
            (CalculateDistribution ⟨0, 1, 2⟩) 0 [])
          [.openOut (dataPath "M") true,
           .calculate (dataPath "M") 1 1 [1] [],
           .written (dataPath "M") (tableOf (CalculateDistribution ⟨0, 1, 2⟩) ⟨"M", 1, 1, [1], []⟩),
           .closeOut (dataPath "M"),
           .GenerateSinglePlot "M" (dataPath "M") (plotPath "M")]
          (loop (fun (i : Nat) (_ : String) => decide (i ≠ 0))
            (CalculateDistribution ⟨0, 1, 2⟩) (([] : List (Descriptor ℚ)).length + 1)
            [(⟨"N", 0, 1, [1], []⟩ : Model ℚ).toDescriptor]) := by
  have hM : succeeds (CalculateDistribution ⟨0, 1, 2⟩) (⟨"M", 1, 1, [1], []⟩ : Model ℚ) = true := by
    simp [succeeds, calculate_unit_model]
  have h := skip_is_isolated ([] : List (Descriptor ℚ))
    [(⟨"N", 0, 1, [1], []⟩ : Model ℚ).toDescriptor] ⟨"M", 1, 1, [1], []⟩
    (fun (i : Nat) (_ : String) => decide (i ≠ 0)) (CalculateDistribution ⟨0, 1, 2⟩) (by decide)
  exact ⟨by decide, hM, h.1, h.2 hM⟩

/-- C3 as stated fails: `M` has `alpha = 0` and its output file does not open,
so `M` is skipped and the valid model `N` is processed; had the file of `M`
opened, its calculation would have raised and `N` would not have been processed
at all. -/
theorem skip_is_isolated_counterexample :
    main (.parsed [(⟨"M", 0, 1, [1], []⟩ : Model ℚ).toDescriptor,
          (⟨"N", 1, 1, [1], []⟩ : Model ℚ).toDescriptor])
        (fun i _ => decide (i ≠ 0)) (CalculateDistribution ⟨0, 1, 2⟩) =
        ⟨[.openOut (dataPath "M") false, .cerr (openFailureLine "M"),
          .openOut (dataPath "N") true,
          .calculate (dataPath "N") 1 1 [1] [],
          .written (dataPath "N") [(0, 0), (1, 2)],
          .closeOut (dataPath "N"),
          .GenerateSinglePlot "N" (dataPath "N") (plotPath "N"),
          .GenerateCombinedPlot [(⟨"M", 0, 1, [1], []⟩ : Model ℚ).toDescriptor,
            (⟨"N", 1, 1, [1], []⟩ : Model ℚ).toDescriptor] combinedPath],
          .returned 0⟩ ∧
      main (.parsed [(⟨"M", 0, 1, [1], []⟩ : Model ℚ).toDescriptor,
          (⟨"N", 1, 1, [1], []⟩ : Model ℚ).toDescriptor])
        (openAt (fun i _ => decide (i ≠ 0)) 0) (CalculateDistribution ⟨0, 1, 2⟩) =
        ⟨[.openOut (dataPath "M") true, .calculate (dataPath "M") 0 1 [1] []],
          .terminated (.calc_error .InvalidParameterError)⟩ := by
  constructor
  · simp [main, loop, loopBody, Model.toDescriptor, calculate_unit_model]
  · simp [main, loop, loopBody, Model.toDescriptor, calculate_zero_alpha, openAt]

/-! ## What a completed run shows -/

section TraceLemmas

variable {R : Type} (canOpen : Nat → String → Bool)
  (calculator : R → R → List R → List R → Except CalcError (Table R))

theorem diagnostics_loopEvents (ms : List (Model R)) (i : Nat) :
    diagnostics (loopEvents canOpen calculator i ms) =
      (skipped canOpen i ms).map (fun m => openFailureLine m.name) := by
  induction ms generalizing i with
  | nil => simp [loopEvents, skipped, diagnostics]
  | cons m rest ih =>
    have h := ih (i + 1)
    unfold diagnostics at h ⊢
    cases ho : canOpen i (dataPath m.name) <;>
      simp [loopEvents, iterationEvents, skipped, ho, h, List.filterMap_append,
        processedEvents, skippedEvents, Event.cerrLine, List.filterMap_cons]

theorem calcCalls_loopEvents (ms : List (Model R)) (i : Nat) :
    calcCalls (loopEvents canOpen calculator i ms) =
      (opened canOpen i ms).map (fun m => (m.alpha, m.m_0, m.c, m.d)) := by
  induction ms generalizing i with
  | nil => simp [loopEvents, opened, calcCalls]
  | cons m rest ih =>
    have h := ih (i + 1)
    unfold calcCalls at h ⊢
    cases ho : canOpen i (dataPath m.name) <;>
      simp [loopEvents, iterationEvents, opened, ho, h, List.filterMap_append,
        processedEvents, skippedEvents, Event.calcArgs, List.filterMap_cons]

theorem plots_loopEvents (ms : List (Model R)) (i : Nat) :
    (loopEvents canOpen calculator i ms).filter Event.isPlot =
      (opened canOpen i ms).map
        (fun m => Event.GenerateSinglePlot m.name (dataPath m.name) (plotPath m.name)) := by
  induction ms generalizing i with
  | nil => simp [loopEvents, opened]
  | cons m rest ih =>
    cases ho : canOpen i (dataPath m.name) <;>
      simp [loopEvents, iterationEvents, opened, ho, ih (i + 1), List.filter_append,
        processedEvents, skippedEvents, Event.isPlot, List.filter_cons]

theorem outputs_loopEvents (ms : List (Model R)) (i : Nat) :
    (loopEvents canOpen calculator i ms).filter Event.isOutput =
      (opened canOpen i ms).flatMap
        (fun m => [Event.written (dataPath m.name) (tableOf calculator m),
          Event.closeOut (dataPath m.name),
          Event.GenerateSinglePlot m.name (dataPath m.name) (plotPath m.name)]) := by
  induction ms generalizing i with
  | nil => simp [loopEvents, opened]
  | cons m rest ih =>
    cases ho : canOpen i (dataPath m.name) <;>
      simp [loopEvents, iterationEvents, opened, ho, ih (i + 1), List.filter_append,
        processedEvents, skippedEvents, Event.isOutput, List.filter_cons]

end TraceLemmas

/-- C5, as the code has it: in a run whose configuration is read and in which
no calculation raises, the diagnostic stream holds exactly one line per model
whose output file did not open, in input order, each line containing the name
of its model, and the calculation is invoked exactly for the other models, for
which no line is written. -/
theorem skipped_models_reported {R : Type} (ms : List (Model R))
    (canOpen : Nat → String → Bool)
    (calculator : R → R → List R → List R → Except CalcError (Table R))
    (hok : noRaise canOpen calculator 0 ms = true) :
    diagnostics (main (.parsed (ms.map Model.toDescriptor)) canOpen calculator).trace =
        (skipped canOpen 0 ms).map (fun m => openFailureLine m.name) ∧
      calcCalls (main (.parsed (ms.map Model.toDescriptor)) canOpen calculator).trace =
        (opened canOpen 0 ms).map (fun m => (m.alpha, m.m_0, m.c, m.d)) ∧
      ∀ m : Model R, ∃ before after, openFailureLine m.name = before ++ m.name ++ after := by
  rw [main_models canOpen calculator ms hok]
  refine ⟨?_, ?_, fun m => ⟨_, _, rfl⟩⟩
  · have h := diagnostics_loopEvents canOpen calculator ms 0
    unfold diagnostics at h ⊢
    simp [List.filterMap_append, h, Event.cerrLine]
  · have h := calcCalls_loopEvents canOpen calculator ms 0
    unfold calcCalls at h ⊢
    simp [List.filterMap_append, h, Event.calcArgs]

/-- The theorem `skipped_models_reported` at two valid models of which the
first does not open. -/
theorem skipped_models_reported_witness :
    noRaise (fun i _ => decide (i ≠ 0)) (CalculateDistribution ⟨0, 1, 2⟩) 0
        [(⟨"M", 1, 1, [1], []⟩ : Model ℚ), ⟨"N", 1, 1, [1], []⟩] = true ∧
      diagnostics (main (.parsed ([(⟨"M", 1, 1, [1], []⟩ : Model ℚ), ⟨"N", 1, 1, [1], []⟩].map
          Model.toDescriptor)) (fun i _ => decide (i ≠ 0))
          (CalculateDistribution ⟨0, 1, 2⟩)).trace =
        (skipped (fun i _ => decide (i ≠ 0)) 0
          [(⟨"M", 1, 1, [1], []⟩ : Model ℚ), ⟨"N", 1, 1, [1], []⟩]).map
          (fun m => openFailureLine m.name) := by
  have hok : noRaise (fun i _ => decide (i ≠ 0)) (CalculateDistribution ⟨0, 1, 2⟩) 0
      [(⟨"M", 1, 1, [1], []⟩ : Model ℚ), ⟨"N", 1, 1, [1], []⟩] = true := by
    simp [noRaise, succeeds, calculate_unit_model]
  exact ⟨hok, (skipped_models_reported _ _ _ hok).1⟩

/-- C5 as stated fails: the calculation of `M` raises and ends the run, so the
calculation of the valid model `N` is never performed, and the diagnostic
stream holds no line for `N` (it holds no line at all). -/
theorem skipped_models_reported_counterexample :
    calcCalls (main (.parsed [(⟨"M", 0, 1, [1], []⟩ : Model ℚ).toDescriptor,
          (⟨"N", 1, 1, [1], []⟩ : Model ℚ).toDescriptor]) (fun _ _ => true)
        (CalculateDistribution ⟨0, 1, 2⟩)).trace = [(0, 1, [1], [])] ∧
      diagnostics (main (.parsed [(⟨"M", 0, 1, [1], []⟩ : Model ℚ).toDescriptor,
          (⟨"N", 1, 1, [1], []⟩ : Model ℚ).toDescriptor]) (fun _ _ => true)
        (CalculateDistribution ⟨0, 1, 2⟩)).trace = [] := by
  decide

/-- C10, as the code has it: in a run whose configuration is read and in which
no calculation raises, the plot requests are one single-plot request per model
whose output file opened, in input order, with data path
`data/<name>_momentum_distribution.txt` and image path
`plots/<name>_distribution.png`, followed by one combined-plot request over all
models of the configuration; and each single-plot request comes right after the
rows were written to that same data path and the file was closed. -/
theorem plot_requests {R : Type} (ms : List (Model R))
    (canOpen : Nat → String → Bool)
    (calculator : R → R → List R → List R → Except CalcError (Table R))
    (hok : noRaise canOpen calculator 0 ms = true) :
    (main (.parsed (ms.map Model.toDescriptor)) canOpen calculator).trace.filter Event.isPlot =
        (opened canOpen 0 ms).map
          (fun m => Event.GenerateSinglePlot m.name
            ("data/" ++ m.name ++ "_momentum_distribution.txt")
            ("plots/" ++ m.name ++ "_distribution.png")) ++
          [.GenerateCombinedPlot (ms.map Model.toDescriptor) "plots/combined_distribution.png"] ∧
      (main (.parsed (ms.map Model.toDescriptor)) canOpen calculator).trace.filter
          Event.isOutput =
        (opened canOpen 0 ms).flatMap
          (fun m => [Event.written ("data/" ++ m.name ++ "_momentum_distribution.txt")
              (tableOf calculator m),
            Event.closeOut ("data/" ++ m.name ++ "_momentum_distribution.txt"),
            Event.GenerateSinglePlot m.name
              ("data/" ++ m.name ++ "_momentum_distribution.txt")
              ("plots/" ++ m.name ++ "_distribution.png")]) ++
          [.GenerateCombinedPlot (ms.map Model.toDescriptor) "plots/combined_distribution.png"] := by
  rw [main_models canOpen calculator ms hok]
  constructor
  · simp [List.filter_append, plots_loopEvents, Event.isPlot, dataPath, plotPath, combinedPath]
  · simp [List.filter_append, outputs_loopEvents, Event.isOutput, dataPath, plotPath,
      combinedPath]

/-- The theorem `plot_requests` at two valid models, the first of which does
not open. -/
theorem plot_requests_witness :
    noRaise (fun i _ => decide (i ≠ 0)) (CalculateDistribution ⟨0, 1, 2⟩) 0
        [(⟨"M", 1, 1, [1], []⟩ : Model ℚ), ⟨"N", 1, 1, [1], []⟩] = true ∧
      (main (.parsed ([(⟨"M", 1, 1, [1], []⟩ : Model ℚ), ⟨"N", 1, 1, [1], []⟩].map
          Model.toDescriptor)) (fun i _ => decide (i ≠ 0))
          (CalculateDistribution ⟨0, 1, 2⟩)).trace.filter Event.isPlot =
        (opened (fun i _ => decide (i ≠ 0)) 0
            [(⟨"M", 1, 1, [1], []⟩ : Model ℚ), ⟨"N", 1, 1, [1], []⟩]).map
          (fun m => Event.GenerateSinglePlot m.name
            ("data/" ++ m.name ++ "_momentum_distribution.txt")
            ("plots/" ++ m.name ++ "_distribution.png")) ++
          [.GenerateCombinedPlot ([(⟨"M", 1, 1, [1], []⟩ : Model ℚ), ⟨"N", 1, 1, [1], []⟩].map
            Model.toDescriptor) "plots/combined_distribution.png"] := by
  have hok : noRaise (fun i _ => decide (i ≠ 0)) (CalculateDistribution ⟨0, 1, 2⟩) 0
      [(⟨"M", 1, 1, [1], []⟩ : Model ℚ), ⟨"N", 1, 1, [1], []⟩] = true := by
    simp [noRaise, succeeds, calculate_unit_model]
  exact ⟨hok, (plot_requests _ _ _ hok).1⟩

/-- C10 as stated fails: the configuration is read, the calculation of its only
model raises and ends the run, and no plot request is issued at all, the
combined one included. -/
theorem plot_requests_counterexample :
    (main (.parsed [(⟨"M", 0, 1, [1], []⟩ : Model ℚ).toDescriptor]) (fun _ _ => true)
        (CalculateDistribution ⟨0, 1, 2⟩)).trace.filter Event.isPlot = [] := by
  decide

/-! ## The model name -/

section SharedObjectLemmas

variable {S R : Type} (canOpen : Nat → String → Bool)

theorem loopBodyS_model
    (calculator : S → R → R → List R → List R → Except CalcError (Table R) × S)
    (i : Nat) (s : S) (m : Model R) :
    loopBodyS canOpen calculator i s m.toDescriptor =
      if canOpen i (dataPath m.name) then
        match calculator s m.alpha m.m_0 m.c m.d with
        | (.ok table, s2) => ((processedEvents m table, none), s2)
        | (.error e, s2) =>
          (([.openOut (dataPath m.name) true,
             .calculate (dataPath m.name) m.alpha m.m_0 m.c m.d], some (.calc_error e)), s2)
      else ((skippedEvents m, none), s) := rfl

/-- An iteration with a method that neither reads nor changes the state of the
object is the iteration of `loopBody`, and leaves the state as it was. -/
theorem loopBodyS_stateless (f : R → R → List R → List R → Except CalcError (Table R))
    (i : Nat) (s : S) (x : Descriptor R) :
    loopBodyS canOpen (fun (t : S) alpha m_0 c d => (f alpha m_0 c d, t)) i s x =
      (loopBody canOpen f i x, s) := by
  rcases x with ⟨_ | n, _ | a, _ | m, _ | c, _ | d⟩ <;> simp [loopBodyS, loopBody]
  cases canOpen i (dataPath n)
  · simp
  · cases f a m c d <;> simp

theorem loopS_stateless (f : R → R → List R → List R → Except CalcError (Table R))
    (xs : List (Descriptor R)) (i : Nat) (s : S) :
    loopS canOpen (fun (t : S) alpha m_0 c d => (f alpha m_0 c d, t)) i s xs =
      loop canOpen f i xs := by
  induction xs generalizing i s with
  | nil => simp [loopS, loop]
  | cons x rest ih =>
    simp only [loopS, loop, loopBodyS_stateless]
    rcases loopBody canOpen f i x with ⟨evs, _ | e⟩
    · simp [ih]
    · simp

/-- The run with a method that neither reads nor changes the state of the
object is the run of `main`. -/
theorem mainS_stateless (f : R → R → List R → List R → Except CalcError (Table R))
    (cfg : Config R) (s0 : S) :
    mainS cfg canOpen (fun (t : S) alpha m_0 c d => (f alpha m_0 c d, t)) s0 =
      main cfg canOpen f := by
  cases cfg with
  | unopened => rfl
  | malformed => rfl
  | parsed models => simp only [mainS, main, loopS_stateless]

end SharedObjectLemmas

/-- C6, as the code has it: two models with equal `alpha`, `m_0`, `c` and `d`,
whatever their names, whose output files both open, pass the same arguments to
`CalculateDistribution`, in whatever state the shared calculator object is; with
the calculation of the specification, which does not depend on that state, the
tables written are the same and the iterations end the same way; and the two
iterations differ in nothing but the path arguments and the label of the single
plot. -/
theorem name_does_not_affect_calculation {S : Type} (grid : GridSpec)
    (calculator : S → ℚ → ℚ → List ℚ → List ℚ → Except CalcError (Table ℚ) × S)
    (m1 m2 : Model ℚ) (i1 i2 : Nat) (s1 s2 : S) (canOpen : Nat → String → Bool)
    (halpha : m1.alpha = m2.alpha) (hm0 : m1.m_0 = m2.m_0) (hc : m1.c = m2.c)
    (hd : m1.d = m2.d)
    (h1 : canOpen i1 (dataPath m1.name) = true) (h2 : canOpen i2 (dataPath m2.name) = true) :
    calcCalls (loopBodyS canOpen calculator i1 s1 m1.toDescriptor).1.1 =
        [(m1.alpha, m1.m_0, m1.c, m1.d)] ∧
      calcCalls (loopBodyS canOpen calculator i2 s2 m2.toDescriptor).1.1 =
        calcCalls (loopBodyS canOpen calculator i1 s1 m1.toDescriptor).1.1 ∧
      tables (loopBodyS canOpen (specCalculator grid) i2 s2 m2.toDescriptor).1.1 =
        tables (loopBodyS canOpen (specCalculator grid) i1 s1 m1.toDescriptor).1.1 ∧
      (loopBodyS canOpen (specCalculator grid) i2 s2 m2.toDescriptor).1.2 =
        (loopBodyS canOpen (specCalculator grid) i1 s1 m1.toDescriptor).1.2 ∧
      (loopBodyS canOpen (specCalculator grid) i2 s2 m2.toDescriptor).1.1.map
          Event.withoutNames =
        (loopBodyS canOpen (specCalculator grid) i1 s1 m1.toDescriptor).1.1.map
          Event.withoutNames := by
  refine ⟨?_, ?_, ?_⟩
  · rw [loopBodyS_model, h1]
    rcases calculator s1 m1.alpha m1.m_0 m1.c m1.d with ⟨_ | _, _⟩ <;>
      simp [calcCalls, processedEvents, Event.calcArgs]
  · rw [loopBodyS_model, loopBodyS_model, h1, h2, ← halpha, ← hm0, ← hc, ← hd]
    rcases calculator s1 m1.alpha m1.m_0 m1.c m1.d with ⟨_ | _, _⟩ <;>
      rcases calculator s2 m1.alpha m1.m_0 m1.c m1.d with ⟨_ | _, _⟩ <;>
      simp [calcCalls, processedEvents, Event.calcArgs, halpha, hm0, hc, hd]
  · rw [loopBodyS_model, loopBodyS_model, h1, h2, ← halpha, ← hm0, ← hc, ← hd]
    unfold specCalculator
    cases CalculateDistribution grid m1.alpha m1.m_0 m1.c m1.d <;>
      simp [tables, processedEvents, Event.table, Event.withoutNames, Event.withoutPaths,
        halpha, hm0, hc, hd]

/-- The theorem `name_does_not_affect_calculation` at two models that differ in
their names only. -/
theorem name_does_not_affect_calculation_witness :
    (fun (_ : Nat) (_ : String) => true) 0 (dataPath (⟨"A", 1, 1, [1], []⟩ : Model ℚ).name) = true ∧
      (fun (_ : Nat) (_ : String) => true) 1 (dataPath (⟨"B", 1, 1, [1], []⟩ : Model ℚ).name) =
        true ∧
      tables (loopBodyS (fun _ _ => true) (specCalculator ⟨0, 1, 2⟩) 1 ()
          (⟨"B", 1, 1, [1], []⟩ : Model ℚ).toDescriptor).1.1 =
        tables (loopBodyS (fun _ _ => true) (specCalculator ⟨0, 1, 2⟩) 0 ()
          (⟨"A", 1, 1, [1], []⟩ : Model ℚ).toDescriptor).1.1 :=
  ⟨rfl, rfl,
    (name_does_not_affect_calculation ⟨0, 1, 2⟩ (specCalculator ⟨0, 1, 2⟩)
      ⟨"A", 1, 1, [1], []⟩ ⟨"B", 1, 1, [1], []⟩ 0 1 () () (fun _ _ => true)
      rfl rfl rfl rfl rfl rfl).2.2.1⟩

/-- C6 as stated fails twice.  The models `N` and `a/b` have equal parameters;
the file of `N` opens and that of `a/b` does not, so arguments are passed for
`N` and none for `a/b`.  And the models `A` and `B` have equal parameters and
both files open; with every path argument blanked the two iterations still
differ, in the label handed to `GenerateSinglePlot`, which is not a path. -/
theorem name_does_not_affect_calculation_counterexample :
    (calcCalls (loopBodyS (fun _ path => decide (path = dataPath "N")) (specCalculator ⟨0, 1, 2⟩)
          0 () (⟨"N", 1, 1, [1], []⟩ : Model ℚ).toDescriptor).1.1 = [(1, 1, [1], [])] ∧
        calcCalls (loopBodyS (fun _ path => decide (path = dataPath "N"))
          (specCalculator ⟨0, 1, 2⟩) 1 ()
          (⟨"a/b", 1, 1, [1], []⟩ : Model ℚ).toDescriptor).1.1 = []) ∧
      ((loopBodyS (fun _ _ => true) (specCalculator ⟨0, 1, 2⟩) 0 ()
          (⟨"A", 1, 1, [1], []⟩ : Model ℚ).toDescriptor).1.1.map Event.withoutPaths =
          [.openOut "" true, .calculate "" 1 1 [1] [], .written "" [(0, 0), (1, 2)],
           .closeOut "", .GenerateSinglePlot "A" "" ""] ∧
        (loopBodyS (fun _ _ => true) (specCalculator ⟨0, 1, 2⟩) 1 ()
          (⟨"B", 1, 1, [1], []⟩ : Model ℚ).toDescriptor).1.1.map Event.withoutPaths =
          [.openOut "" true, .calculate "" 1 1 [1] [], .written "" [(0, 0), (1, 2)],
           .closeOut "", .GenerateSinglePlot "B" "" ""] ∧
        Event.GenerateSinglePlot (R := ℚ) "A" "" "" ≠ Event.GenerateSinglePlot "B" "" "") := by
  refine ⟨⟨?_, ?_⟩, ?_, ?_, by decide⟩
  · simp [loopBodyS, Model.toDescriptor, specCalculator, calculate_unit_model, calcCalls,
      Event.calcArgs]
  · have hne : dataPath "a/b" ≠ dataPath "N" := by decide
    simp [loopBodyS, Model.toDescriptor, hne, calcCalls, Event.cerrLine, Event.calcArgs]
  · simp [loopBodyS, Model.toDescriptor, specCalculator, calculate_unit_model,
      Event.withoutPaths]
  · simp [loopBodyS, Model.toDescriptor, specCalculator, calculate_unit_model,
      Event.withoutPaths]

/-! ## The order of the models -/

/-- The calculation of the sample model `alpha = 1, m_0 = 1, c = [1], d = []`
on the three-point grid `0, 1, 2`. -/
theorem calculate_unit_model_three :
    CalculateDistribution ⟨0, 2, 3⟩ 1 1 [1] [] = .ok [(0, 0), (1, 25 / 33), (2, 16 / 33)] := by
  norm_num [CalculateDistribution, gridPoints, unnormalized, WaveFunctionEngine, poleSum,
    poleMass, quadrature, List.range_succ]

/-- The calculation of the sample model `alpha = 2, m_0 = 1, c = [1], d = []`
on the three-point grid `0, 1, 2`. -/
theorem calculate_two_model_three :
    CalculateDistribution ⟨0, 2, 3⟩ 2 1 [1] [] = .ok [(0, 0), (1, 32 / 57), (2, 50 / 57)] := by
  norm_num [CalculateDistribution, gridPoints, unnormalized, WaveFunctionEngine, poleSum,
    poleMass, quadrature, List.range_succ]

section OrderLemmas

variable {R F : Type} [DecidableEq F] (fileOf : String → F) (fileOpens : String → Bool)
  (calculator : R → R → List R → List R → Except CalcError (Table R))

theorem noRaise_of_forall (ms : List (Model R)) (i : Nat)
    (h : ∀ m ∈ ms, fileOpens (dataPath m.name) = true → succeeds calculator m = true) :
    noRaise (fun _ path => fileOpens path) calculator i ms = true := by
  induction ms generalizing i with
  | nil => simp [noRaise]
  | cons m rest ih =>
    have hm := h m (List.mem_cons_self _ _)
    have hr := ih (i + 1) (fun x hx => h x (List.mem_cons_of_mem _ hx))
    cases ho : fileOpens (dataPath m.name)
    · simp [noRaise, ho, hr]
    · simp [noRaise, ho, hr, hm ho]

/-- What a completed loop makes of one file: each model whose path denotes the
file and whose file opens truncates it and then writes its table. -/
theorem contentAt_loopEvents (ms : List (Model R)) (i : Nat) (file : F) :
    (loopEvents (fun _ p => fileOpens p) calculator i ms).filterMap
        (Event.contentAt fileOf file) =
      (ms.filter (fun x => fileOpens (dataPath x.name) &&
        decide (fileOf (dataPath x.name) = file))).flatMap
        (fun x => [[], tableOf calculator x]) := by
  induction ms generalizing i with
  | nil => simp [loopEvents]
  | cons m rest ih =>
    have h := ih (i + 1)
    by_cases hp : fileOf (dataPath m.name) = file
    · cases ho : fileOpens (dataPath m.name) <;>
        simp [loopEvents, iterationEvents, ho, hp, h, List.filterMap_append, processedEvents,
          skippedEvents, Event.contentAt, List.filterMap_cons, List.filter_cons]
    · cases ho : fileOpens (dataPath m.name) <;>
        simp [loopEvents, iterationEvents, ho, hp, h, List.filterMap_append, processedEvents,
          skippedEvents, Event.contentAt, List.filterMap_cons, List.filter_cons]

/-- Among models whose paths denote pairwise distinct files, only the model
itself has its output file. -/
theorem filter_own_file (ms : List (Model R)) (m : Model R)
    (hfiles : (ms.map (fun x => fileOf (dataPath x.name))).Nodup) (hm : m ∈ ms) :
    ms.filter (fun x => fileOpens (dataPath x.name) &&
        decide (fileOf (dataPath x.name) = fileOf (dataPath m.name))) =
      if fileOpens (dataPath m.name) then [m] else [] := by
  induction ms with
  | nil => cases hm
  | cons x rest ih =>
    simp only [List.map_cons, List.nodup_cons, List.mem_map, not_exists, not_and] at hfiles
    obtain ⟨hx, hrest⟩ := hfiles
    rcases List.mem_cons.1 hm with rfl | hmem
    · have hnone : rest.filter (fun x => fileOpens (dataPath x.name) &&
          decide (fileOf (dataPath x.name) = fileOf (dataPath m.name))) = [] := by
        rw [List.filter_eq_nil_iff]
        intro y hy
        have hne : fileOf (dataPath y.name) ≠ fileOf (dataPath m.name) := fun h => hx y hy h
        simp [hne]
      cases ho : fileOpens (dataPath m.name) <;> simp [List.filter_cons, ho, hnone]
    · have hne : fileOf (dataPath x.name) ≠ fileOf (dataPath m.name) := fun h =>
        hx m hmem h.symm
      simp [List.filter_cons, hne, ih hrest hmem]

/-- In a completed run over models whose paths denote pairwise distinct files,
the file of a model holds the table of that model when it opens, and is not
touched otherwise. -/
theorem fileContent_main (ms : List (Model R)) (m : Model R)
    (hfiles : (ms.map (fun x => fileOf (dataPath x.name))).Nodup) (hm : m ∈ ms)
    (hok : ∀ x ∈ ms, fileOpens (dataPath x.name) = true → succeeds calculator x = true) :
    fileContent fileOf (main (.parsed (ms.map Model.toDescriptor)) (fun _ p => fileOpens p)
        calculator).trace (fileOf (dataPath m.name)) =
      if fileOpens (dataPath m.name) then some (tableOf calculator m) else none := by
  rw [main_models _ calculator ms (noRaise_of_forall fileOpens calculator ms 0 hok)]
  unfold fileContent
  simp only [List.filterMap_append, contentAt_loopEvents fileOf fileOpens calculator ms 0,
    filter_own_file fileOf fileOpens ms m hfiles hm]
  cases fileOpens (dataPath m.name) <;> simp [Event.contentAt]

end OrderLemmas

/-- C7, as the code has it: for models whose output paths denote pairwise
distinct files, an environment in which opening depends on the path only, and
the calculation of the specification raising for no model whose file opens, the
content of the output file of each model is the same after the run over the
list and after the run over any permutation of it: the table of that model when
its file opens, and untouched when it does not.  The shared calculator object
carries no state from one iteration into another: an iteration leaves the state
of the object as it was, and its events and its end do not depend on that
state. -/
theorem order_independent {S F : Type} [DecidableEq F] (grid : GridSpec) (s0 : S)
    (fileOf : String → F) (ms ms2 : List (Model ℚ)) (fileOpens : String → Bool)
    (hperm : ms.Perm ms2)
    (hfiles : (ms.map (fun x => fileOf (dataPath x.name))).Nodup)
    (hok : ∀ x ∈ ms, fileOpens (dataPath x.name) = true →
      succeeds (CalculateDistribution grid) x = true)
    (m : Model ℚ) (hm : m ∈ ms) :
    fileContent fileOf (mainS (.parsed (ms.map Model.toDescriptor)) (fun _ p => fileOpens p)
          (specCalculator grid) s0).trace (fileOf (dataPath m.name)) =
        fileContent fileOf (mainS (.parsed (ms2.map Model.toDescriptor))
          (fun _ p => fileOpens p) (specCalculator grid) s0).trace (fileOf (dataPath m.name)) ∧
      fileContent fileOf (mainS (.parsed (ms.map Model.toDescriptor)) (fun _ p => fileOpens p)
          (specCalculator grid) s0).trace (fileOf (dataPath m.name)) =
        (if fileOpens (dataPath m.name) then some (tableOf (CalculateDistribution grid) m)
          else none) ∧
      ∀ (s : S) (i : Nat) (x : Descriptor ℚ),
        (loopBodyS (fun _ p => fileOpens p) (specCalculator grid) i s x).2 = s ∧
          (loopBodyS (fun _ p => fileOpens p) (specCalculator grid) i s x).1 =
            (loopBodyS (fun _ p => fileOpens p) (specCalculator grid) i s0 x).1 := by
  have hfiles2 : (ms2.map (fun x => fileOf (dataPath x.name))).Nodup :=
    (hperm.map (fun x => fileOf (dataPath x.name))).nodup_iff.1 hfiles
  have hok2 : ∀ x ∈ ms2, fileOpens (dataPath x.name) = true →
      succeeds (CalculateDistribution grid) x = true :=
    fun x hx => hok x (hperm.mem_iff.2 hx)
  have hspec : (specCalculator grid : S → ℚ → ℚ → List ℚ → List ℚ →
      Except CalcError (Table ℚ) × S) =
      fun (t : S) alpha m_0 c d => (CalculateDistribution grid alpha m_0 c d, t) := rfl
  rw [hspec, mainS_stateless, mainS_stateless,
    fileContent_main fileOf fileOpens (CalculateDistribution grid) ms m hfiles hm hok,
    fileContent_main fileOf fileOpens (CalculateDistribution grid) ms2 m hfiles2
      (hperm.mem_iff.1 hm) hok2]
  refine ⟨rfl, rfl, fun s i x => ?_⟩
  rw [loopBodyS_stateless, loopBodyS_stateless]
  exact ⟨rfl, rfl⟩

/-- The theorem `order_independent` at two valid models and their swap. -/
theorem order_independent_witness :
    [(⟨"A", 1, 1, [1], []⟩ : Model ℚ), ⟨"B", 1, 1, [1], []⟩].Perm
        [⟨"B", 1, 1, [1], []⟩, ⟨"A", 1, 1, [1], []⟩] ∧
      ([(⟨"A", 1, 1, [1], []⟩ : Model ℚ), ⟨"B", 1, 1, [1], []⟩].map
        (fun x => sampleFileOf (dataPath x.name))).Nodup ∧
      fileContent sampleFileOf (mainS (.parsed ([(⟨"A", 1, 1, [1], []⟩ : Model ℚ),
            ⟨"B", 1, 1, [1], []⟩].map Model.toDescriptor)) (fun _ p => (fun _ => true) p)
          (specCalculator ⟨0, 1, 2⟩) ()).trace (sampleFileOf (dataPath "A")) =
        fileContent sampleFileOf (mainS (.parsed ([(⟨"B", 1, 1, [1], []⟩ : Model ℚ),
            ⟨"A", 1, 1, [1], []⟩].map Model.toDescriptor)) (fun _ p => (fun _ => true) p)
          (specCalculator ⟨0, 1, 2⟩) ()).trace (sampleFileOf (dataPath "A")) :=
  ⟨List.Perm.swap _ _ _, by decide,
    (order_independent ⟨0, 1, 2⟩ () sampleFileOf
      [⟨"A", 1, 1, [1], []⟩, ⟨"B", 1, 1, [1], []⟩]
      [⟨"B", 1, 1, [1], []⟩, ⟨"A", 1, 1, [1], []⟩] (fun _ => true)
      (List.Perm.swap _ _ _) (by decide)
      (by simp [succeeds, calculate_unit_model]) ⟨"A", 1, 1, [1], []⟩ (by simp)).1⟩

/-- C7 as stated fails twice.  The names `M` and `N` are distinct; with `M`
first its calculation raises and ends the run before `N` is reached, so the
file of `N` is not touched, while with `N` first it holds the table of `N`.
And the names `x` and `/x` are distinct but their output paths denote one file,
which each model truncates and writes in turn: it holds the table of the model
that comes last, so its content depends on the order although no calculation
raises. -/
theorem order_independent_counterexample :
    ([(⟨"M", 0, 1, [1], []⟩ : Model ℚ), ⟨"N", 1, 1, [1], []⟩].Perm
          [⟨"N", 1, 1, [1], []⟩, ⟨"M", 0, 1, [1], []⟩] ∧
        ([(⟨"M", 0, 1, [1], []⟩ : Model ℚ), ⟨"N", 1, 1, [1], []⟩].map Model.name).Nodup ∧
        fileContent sampleFileOf (mainS (.parsed ([(⟨"M", 0, 1, [1], []⟩ : Model ℚ),
              ⟨"N", 1, 1, [1], []⟩].map Model.toDescriptor)) (fun _ _ => true)
            (specCalculator ⟨0, 1, 2⟩) ()).trace (sampleFileOf (dataPath "N")) = none ∧
        fileContent sampleFileOf (mainS (.parsed ([(⟨"N", 1, 1, [1], []⟩ : Model ℚ),
              ⟨"M", 0, 1, [1], []⟩].map Model.toDescriptor)) (fun _ _ => true)
            (specCalculator ⟨0, 1, 2⟩) ()).trace (sampleFileOf (dataPath "N")) =
          some [(0, 0), (1, 2)]) ∧
      ([(⟨"x", 1, 1, [1], []⟩ : Model ℚ), ⟨"/x", 2, 1, [1], []⟩].Perm
          [⟨"/x", 2, 1, [1], []⟩, ⟨"x", 1, 1, [1], []⟩] ∧
        ([(⟨"x", 1, 1, [1], []⟩ : Model ℚ), ⟨"/x", 2, 1, [1], []⟩].map Model.name).Nodup ∧
        sampleFileOf (dataPath "/x") = sampleFileOf (dataPath "x") ∧
        fileContent sampleFileOf (mainS (.parsed ([(⟨"x", 1, 1, [1], []⟩ : Model ℚ),
              ⟨"/x", 2, 1, [1], []⟩].map Model.toDescriptor)) (fun _ _ => true)
            (specCalculator ⟨0, 2, 3⟩) ()).trace (sampleFileOf (dataPath "x")) =
          some [(0, 0), (1, 32 / 57), (2, 50 / 57)] ∧
        fileContent sampleFileOf (mainS (.parsed ([(⟨"/x", 2, 1, [1], []⟩ : Model ℚ),
              ⟨"x", 1, 1, [1], []⟩].map Model.toDescriptor)) (fun _ _ => true)
            (specCalculator ⟨0, 2, 3⟩) ()).trace (sampleFileOf (dataPath "x")) =
          some [(0, 0), (1, 25 / 33), (2, 16 / 33)]) := by
  have hMN : sampleFileOf (dataPath "M") ≠ sampleFileOf (dataPath "N") := by decide
  have hx : sampleFileOf (dataPath "/x") = sampleFileOf (dataPath "x") := by decide
  refine ⟨⟨List.Perm.swap _ _ _, by decide, ?_, ?_⟩,
    ⟨List.Perm.swap _ _ _, by decide, hx, ?_, ?_⟩⟩
  · simp [mainS, loopS, loopBodyS, Model.toDescriptor, specCalculator, calculate_zero_alpha,
      fileContent, Event.contentAt, hMN]
  · simp [mainS, loopS, loopBodyS, Model.toDescriptor, specCalculator, calculate_unit_model,
      calculate_zero_alpha, fileContent, Event.contentAt, hMN]
  · simp [mainS, loopS, loopBodyS, Model.toDescriptor, specCalculator,
      calculate_unit_model_three, calculate_two_model_three, fileContent, Event.contentAt, hx]
  · simp [mainS, loopS, loopBodyS, Model.toDescriptor, specCalculator,
      calculate_unit_model_three, calculate_two_model_three, fileContent, Event.contentAt, hx]

/-! ## The calculation -/

theorem gridPoints_of_succ (g : GridSpec) (n : Nat) (h : g.count = n + 1) :
    ∃ rest, gridPoints g = g.lower :: rest := by
  unfold gridPoints
  rw [h, List.range_succ_eq_map, List.map_cons]
  exact ⟨_, congrArg₂ List.cons (by simp) rfl⟩

/-- The calculation raises `InvalidParameterError` whenever `alpha ≤ 0`. -/
theorem CalculateDistribution_nonpos_alpha (grid : GridSpec) (alpha m_0 : ℚ) (c d : List ℚ)
    (halpha : alpha ≤ 0) :
    CalculateDistribution grid alpha m_0 c d = .error .InvalidParameterError := by
  unfold CalculateDistribution
  split
  · rfl
  · rename_i hg
    have hcount : grid.count ≠ 0 := fun h => hg (Or.inl h)
    obtain ⟨n, hn⟩ := Nat.exists_eq_succ_of_ne_zero hcount
    obtain ⟨rest, hrest⟩ := gridPoints_of_succ grid n hn
    simp [hrest, unnormalized, WaveFunctionEngine, halpha]

theorem unnormalized_ok (alpha m_0 : ℚ) (c d : List ℚ) (halpha : 0 < alpha) (hm0 : 0 < m_0)
    (ps : List ℚ) (hps : ∀ p ∈ ps, 0 ≤ p) :
    unnormalized alpha m_0 c d ps = .ok (ps.map (fun p => (p, density p alpha m_0 c d))) := by
  induction ps with
  | nil => simp [unnormalized]
  | cons p ps ih =>
    have hp : 0 ≤ p := hps p (List.mem_cons_self _ _)
    have hrest := ih (fun q hq => hps q (List.mem_cons_of_mem _ hq))
    simp [unnormalized, WaveFunctionEngine, not_le.2 halpha, not_le.2 hm0, not_lt.2 hp, hrest,
      density]

theorem gridPoints_nonneg (g : GridSpec) (hlower : 0 ≤ g.lower) (hgrid : g.lower < g.upper)
    (p : ℚ) (hp : p ∈ gridPoints g) : 0 ≤ p := by
  unfold gridPoints at hp
  obtain ⟨i, hi, rfl⟩ := List.mem_map.1 hp
  have hcount : (1 : ℚ) ≤ (g.count : ℚ) := by
    have : 1 ≤ g.count := by
      have := List.mem_range.1 hi
      omega
    exact_mod_cast this
  have hstep : 0 ≤ (g.upper - g.lower) / ((g.count : ℚ) - 1) :=
    div_nonneg (by linarith) (by linarith)
  have hi0 : (0 : ℚ) ≤ (i : ℚ) := Nat.cast_nonneg i
  have := mul_nonneg hi0 hstep
  linarith

/-- The quadrature is linear: dividing every density by `k` divides it by `k`. -/
theorem quadrature_div (k : ℚ) :
    ∀ rows : Table ℚ,
      quadrature (rows.map (fun row => (row.1, row.2 / k))) = quadrature rows / k
  | [] => by simp [quadrature]
  | [_] => by simp [quadrature]
  | (p0, f0) :: (p1, f1) :: rest => by
    have ih := quadrature_div k ((p1, f1) :: rest)
    simp only [List.map_cons, quadrature] at ih ⊢
    rw [ih]
    ring

/-- C8, as the code has it: for a model with `alpha ≤ 0` whose output file
opens, the calculation raises `InvalidParameterError`, which nothing catches:
the run is terminated there, no rows are written, the file is not closed by
`main` and no single or combined plot is requested; the output file itself has
been created by `main` before the calculation was invoked. -/
theorem nonpositive_alpha_raises (grid : GridSpec) (pre post : List (Descriptor ℚ))
    (M : Model ℚ) (canOpen : Nat → String → Bool)
    (halpha : M.alpha ≤ 0)
    (hpre : (loop canOpen (CalculateDistribution grid) 0 pre).2 = none)
    (hopen : canOpen pre.length (dataPath M.name) = true) :
    CalculateDistribution grid M.alpha M.m_0 M.c M.d = .error .InvalidParameterError ∧
      main (.parsed (pre ++ M.toDescriptor :: post)) canOpen (CalculateDistribution grid) =
        ⟨(loop canOpen (CalculateDistribution grid) 0 pre).1 ++
            [.openOut (dataPath M.name) true,
             .calculate (dataPath M.name) M.alpha M.m_0 M.c M.d],
          .terminated (.calc_error .InvalidParameterError)⟩ := by
  have herr := CalculateDistribution_nonpos_alpha grid M.alpha M.m_0 M.c M.d halpha
  refine ⟨herr, ?_⟩
  rw [main_parsed, loop_append, hpre]
  simp only [Nat.zero_add]
  rw [loop_cons_model_error canOpen _ _ M post _ hopen herr]

/-- The theorem `nonpositive_alpha_raises` at a model with `alpha = -1`. -/
theorem nonpositive_alpha_raises_witness :
    (⟨"M", -1, 1, [1], []⟩ : Model ℚ).alpha ≤ 0 ∧
      main (.parsed ([] ++ (⟨"M", -1, 1, [1], []⟩ : Model ℚ).toDescriptor :: []))
          (fun _ _ => true) (CalculateDistribution ⟨0, 1, 2⟩) =
        ⟨(loop (fun _ _ => true) (CalculateDistribution ⟨0, 1, 2⟩) 0 []).1 ++
            [.openOut (dataPath "M") true, .calculate (dataPath "M") (-1) 1 [1] []],
          .terminated (.calc_error .InvalidParameterError)⟩ :=
  ⟨by decide,
    (nonpositive_alpha_raises ⟨0, 1, 2⟩ [] [] ⟨"M", -1, 1, [1], []⟩ (fun _ _ => true)
      (by decide) rfl rfl).2⟩

/-- C8 as stated fails: the model has `alpha = 0`, and its output file is
created (opened for writing) by `main` before the calculation raises. -/
theorem nonpositive_alpha_raises_counterexample :
    (⟨"M", 0, 1, [1], []⟩ : Model ℚ).alpha ≤ 0 ∧
      Event.openOut (dataPath "M") true ∈
        (main (.parsed [(⟨"M", 0, 1, [1], []⟩ : Model ℚ).toDescriptor]) (fun _ _ => true)
          (CalculateDistribution ⟨0, 1, 2⟩)).trace := by
  decide

/-- C9: for `alpha > 0`, `m0 > 0`, a grid from a non-negative lower bound to a
larger upper bound with at least one point, and a non-zero integral `I` of the
unnormalized density over the grid, `CalculateDistribution` returns the rows
`(p_i, rho_i / I)`, and the quadrature of these rows is 1. -/
theorem distribution_normalized (grid : GridSpec) (alpha m_0 : ℚ) (c d : List ℚ)
    (halpha : 0 < alpha) (hm0 : 0 < m_0) (hlower : 0 ≤ grid.lower)
    (hgrid : grid.lower < grid.upper) (hcount : grid.count ≠ 0)
    (hI : quadrature ((gridPoints grid).map (fun p => (p, density p alpha m_0 c d))) ≠ 0) :
    CalculateDistribution grid alpha m_0 c d =
        .ok ((gridPoints grid).map (fun p => (p, density p alpha m_0 c d /
          quadrature ((gridPoints grid).map (fun q => (q, density q alpha m_0 c d)))))) ∧
      quadrature ((gridPoints grid).map (fun p => (p, density p alpha m_0 c d /
          quadrature ((gridPoints grid).map (fun q => (q, density q alpha m_0 c d)))))) = 1 := by
  have hrows := unnormalized_ok alpha m_0 c d halpha hm0 (gridPoints grid)
    (gridPoints_nonneg grid hlower hgrid)
  have hscale := quadrature_div
    (quadrature ((gridPoints grid).map (fun q => (q, density q alpha m_0 c d))))
    ((gridPoints grid).map (fun q => (q, density q alpha m_0 c d)))
  rw [List.map_map] at hscale
  constructor
  · unfold CalculateDistribution
    rw [if_neg (by simp [hcount, not_le.2 hgrid]), hrows]
    simp only [hI, if_false, List.map_map]
    rfl
  · have h2 : ((fun row : ℚ × ℚ => (row.1, row.2 /
        quadrature ((gridPoints grid).map (fun q => (q, density q alpha m_0 c d))))) ∘
        fun q => (q, density q alpha m_0 c d)) =
        fun p => (p, density p alpha m_0 c d /
          quadrature ((gridPoints grid).map (fun q => (q, density q alpha m_0 c d)))) := rfl
    rw [h2] at hscale
    rw [hscale, div_self hI]

/-- The theorem `distribution_normalized` at `alpha = 1, m0 = 1, c = [1], d = []`
on the two-point grid `0, 1`, where the integral is `1/8`. -/
theorem distribution_normalized_witness :
    quadrature ((gridPoints ⟨0, 1, 2⟩).map (fun p => (p, density p 1 1 [1] []))) = 1 / 8 ∧
      CalculateDistribution ⟨0, 1, 2⟩ 1 1 [1] [] =
        .ok ((gridPoints ⟨0, 1, 2⟩).map (fun p => (p, density p 1 1 [1] [] /
          quadrature ((gridPoints ⟨0, 1, 2⟩).map (fun q => (q, density q 1 1 [1] [])))))) ∧
      quadrature ((gridPoints ⟨0, 1, 2⟩).map (fun p => (p, density p 1 1 [1] [] /
          quadrature ((gridPoints ⟨0, 1, 2⟩).map (fun q => (q, density q 1 1 [1] [])))))) = 1 := by
  have hI : quadrature ((gridPoints ⟨0, 1, 2⟩).map (fun p => (p, density p 1 1 [1] []))) =
      1 / 8 := by
    norm_num [gridPoints, density, poleSum, poleMass, quadrature, List.range_succ]
  exact ⟨hI, distribution_normalized ⟨0, 1, 2⟩ 1 1 [1] [] (by norm_num) (by norm_num)
    (by norm_num) (by norm_num) (by decide) (by rw [hI]; norm_num)⟩

end Deuteron
